import Mathlib

/-!
Verification of the oxc boundary layer: configuration resolution
(napi/minify/src/options.rs) and parse-result marshaling
(wasm/parser/src/lib.rs), shallowly embedded in Lean.
-/

set_option maxHeartbeats 1000000

/-- ECMAScript version tags. The recognized set is the one listed in the
src ts_type annotation on `CompressOptions.target`:
esnext, es2015 .. es2024. -/
inductive ESTarget where
  | esnext | es2015 | es2016 | es2017 | es2018 | es2019 | es2020
  | es2021 | es2022 | es2023 | es2024
  deriving DecidableEq, Repr

/-- Modelled from the spec: `ESTarget::from_str` lives in the `oxc_syntax`
crate, not under src/. Per the spec, an unrecognized target-version token
fails resolution with an error carrying the offending field name and value;
the recognized tags are those of the src ts_type annotation. -/
def ESTarget.from_str (s : String) : Except String ESTarget :=
  if s = "esnext" then .ok .esnext
  else if s = "es2015" then .ok .es2015
  else if s = "es2016" then .ok .es2016
  else if s = "es2017" then .ok .es2017
  else if s = "es2018" then .ok .es2018
  else if s = "es2019" then .ok .es2019
  else if s = "es2020" then .ok .es2020
  else if s = "es2021" then .ok .es2021
  else if s = "es2022" then .ok .es2022
  else if s = "es2023" then .ok .es2023
  else if s = "es2024" then .ok .es2024
  else .error ("invalid value for target: " ++ s)

namespace oxc_minifier

/-- Engine-side compress options (`oxc_minifier::CompressOptions`). -/
structure CompressOptions where
  target : ESTarget
  drop_console : Bool
  drop_debugger : Bool
  deriving DecidableEq, Repr

/-- Modelled from the spec: `oxc_minifier::CompressOptions::default()` is
engine code not under src/. Spec section 6 gives the defaults: target =
the newest tag (esnext), dropConsole false, dropDebugger true. -/
def CompressOptions.default : CompressOptions :=
  { target := ESTarget.esnext, drop_console := false, drop_debugger := true }

/-- Engine-side mangle options (`oxc_minifier::MangleOptions`). -/
structure MangleOptions where
  top_level : Bool
  debug : Bool
  deriving DecidableEq, Repr

/-- Modelled from the spec: `oxc_minifier::MangleOptions::default()` is
engine code not under src/. Spec section 6 gives the defaults:
toplevel false, debug false. -/
def MangleOptions.default : MangleOptions :=
  { top_level := false, debug := false }

/-- Engine-side minifier options (`oxc_minifier::MinifierOptions`):
`None` in a field means the stage is skipped. -/
structure MinifierOptions where
  compress : Option CompressOptions
  mangle : Option MangleOptions
  deriving DecidableEq, Repr

end oxc_minifier

namespace oxc_codegen

/-- Engine-side codegen options (`oxc_codegen::CodegenOptions`); only the
`minify` field is touched by the src conversion, so only it is modelled. -/
structure CodegenOptions where
  minify : Bool
  deriving DecidableEq, Repr

/-- Modelled from the spec: `oxc_codegen::CodegenOptions::default()` is
engine code not under src/. Spec section 6 gives removeWhitespace
default = true. -/
def CodegenOptions.default : CodegenOptions :=
  { minify := true }

end oxc_codegen

/-- `napi::Either<A, B>` as used for the boolean-or-object options. -/
inductive Either (A B : Type) where
  | a : A → Either A B
  | b : B → Either A B
  deriving DecidableEq, Repr

/-- Caller-facing `CompressOptions` (napi/minify/src/options.rs). -/
structure CompressOptions where
  target : Option String
  drop_console : Option Bool
  drop_debugger : Option Bool
  deriving DecidableEq, Repr

/-- `impl Default for CompressOptions` (options.rs lines 37-41). -/
def CompressOptions.default : CompressOptions :=
  { target := none, drop_console := none, drop_debugger := some true }

/-- Caller-facing `MangleOptions` (napi/minify/src/options.rs). -/
structure MangleOptions where
  toplevel : Option Bool
  debug : Option Bool
  deriving DecidableEq, Repr

/-- `#[derive(Default)]` on `MangleOptions`: every field `None`. -/
def MangleOptions.default : MangleOptions :=
  { toplevel := none, debug := none }

/-- Caller-facing `CodegenOptions` (napi/minify/src/options.rs). -/
structure CodegenOptions where
  remove_whitespace : Option Bool
  deriving DecidableEq, Repr

/-- `impl Default for CodegenOptions` (options.rs lines 90-94). -/
def CodegenOptions.default : CodegenOptions :=
  { remove_whitespace := some true }

/-- Caller-facing `MinifyOptions` (napi/minify/src/options.rs). -/
structure MinifyOptions where
  compress : Option (Either Bool CompressOptions)
  mangle : Option (Either Bool MangleOptions)
  codegen : Option (Either Bool CodegenOptions)
  sourcemap : Option Bool
  deriving DecidableEq, Repr

/-- `#[derive(Default)]` on `MinifyOptions`: every field `None`. -/
def MinifyOptions.default : MinifyOptions :=
  { compress := none, mangle := none, codegen := none, sourcemap := none }

/-- `impl TryFrom<&CompressOptions> for oxc_minifier::CompressOptions`
(options.rs lines 43-58): each present field overrides the engine default,
each absent field falls back to it; a present `target` string is parsed
and a parse failure aborts the whole conversion (the `?` operator). -/
def compressTryFrom (o : CompressOptions) :
    Except String oxc_minifier.CompressOptions := do
  let d := oxc_minifier.CompressOptions.default
  let target ← match o.target with
    | some s => (ESTarget.from_str s).map some
    | none => Except.ok none
  Except.ok
    { target := target.getD d.target,
      drop_console := o.drop_console.getD d.drop_console,
      drop_debugger := o.drop_debugger.getD d.drop_debugger }

/-- `impl From<&MangleOptions> for oxc_minifier::MangleOptions`
(options.rs lines 72-80). -/
def mangleFrom (o : MangleOptions) : oxc_minifier.MangleOptions :=
  let d := oxc_minifier.MangleOptions.default
  { top_level := o.toplevel.getD d.top_level,
    debug := o.debug.getD d.debug }

/-- `impl From<&CodegenOptions> for oxc_codegen::CodegenOptions`
(options.rs lines 96-104). -/
def codegenFrom (o : CodegenOptions) : oxc_codegen.CodegenOptions :=
  let d := oxc_codegen.CodegenOptions.default
  { d with minify := o.remove_whitespace.getD d.minify }

/-- `impl TryFrom<&MinifyOptions> for oxc_minifier::MinifierOptions`
(options.rs lines 118-134): tri-state collapse of `compress` and `mangle`. -/
def minifierOptionsTryFrom (o : MinifyOptions) :
    Except String oxc_minifier.MinifierOptions := do
  let compress ← match o.compress with
    | some (.a false) => Except.ok none
    | none | some (.a true) => Except.ok (some oxc_minifier.CompressOptions.default)
    | some (.b c) => (compressTryFrom c).map some
  let mangle := match o.mangle with
    | some (.a false) => none
    | none | some (.a true) => some oxc_minifier.MangleOptions.default
    | some (.b m) => some (mangleFrom m)
  Except.ok { compress := compress, mangle := mangle }

/-- Modelled from the spec: the codegen tri-state resolution lives in
napi/minify/src/lib.rs, which is not under src/. Spec section 4.1 states
the resolution rule applies identically to codegen: Absent and
BooleanFlag(true) enable the stage with full defaults, BooleanFlag(false)
disables it, DetailedConfig merges via the src conversion `codegenFrom`. -/
def resolveCodegen : Option (Either Bool CodegenOptions) → Option oxc_codegen.CodegenOptions
  | some (.a false) => none
  | none => some (codegenFrom CodegenOptions.default)
  | some (.a true) => some (codegenFrom CodegenOptions.default)
  | some (.b c) => some (codegenFrom c)

/-! ## wasm/parser/src/lib.rs -/

/-- `ParserOptions` (lib.rs lines 14-24). -/
structure ParserOptions where
  source_type : Option String
  source_filename : Option String
  deriving DecidableEq, Repr

/-- Modelled from the spec: `SourceType` lives in the `oxc_span` crate, not
under src/. Per the src doc comment ("module" and "jsx" will be inferred
from `sourceFilename`) and spec section 6, it is modelled by its two axes
relevant here: whether the source is a module, and the jsx dialect. -/
structure SourceType where
  module : Bool
  jsx : Bool
  deriving DecidableEq, Repr

/-- Modelled from the spec: `SourceType::default()` is engine code not under
src/; a plain script/module JavaScript type with no jsx dialect. -/
def SourceType.default : SourceType :=
  { module := true, jsx := false }

/-- The filename extension: the characters after the last dot. -/
def fileExtension (name : String) : String :=
  String.mk ((name.toList.reverse.takeWhile fun c => c ≠ '.').reverse)

/-- Modelled from the spec: `SourceType::from_path` is engine code not under
src/. It infers "module" and "jsx" from the filename extension and rejects
(returns `none` for) unrecognized extensions, which `parse_sync` unwraps. -/
def SourceType.from_path (name : String) : Option SourceType :=
  match fileExtension name with
  | "js" => some { module := true, jsx := false }
  | "mjs" => some { module := true, jsx := false }
  | "cjs" => some { module := false, jsx := false }
  | "jsx" => some { module := true, jsx := true }
  | "ts" => some { module := true, jsx := false }
  | "mts" => some { module := true, jsx := false }
  | "cts" => some { module := false, jsx := false }
  | "tsx" => some { module := true, jsx := true }
  | _ => none

/-- Modelled from the spec: `SourceType::with_script` is engine code not
under src/; a builder that sets only the script/module axis. -/
def SourceType.with_script (st : SourceType) (yes : Bool) : SourceType :=
  { st with module := !yes }

/-- Modelled from the spec: `SourceType::with_module` is engine code not
under src/; a builder that sets only the script/module axis. -/
def SourceType.with_module (st : SourceType) (yes : Bool) : SourceType :=
  { st with module := yes }

/-- First source-type binding of `parse_sync` (lib.rs lines 82-86):
infer from `source_filename` when present (`none` here models the panic of
the `.unwrap()` on a rejected path), else the default. -/
def inferredSourceType (options : ParserOptions) : Option SourceType :=
  match options.source_filename with
  | some name => SourceType.from_path name
  | none => some SourceType.default

/-- Second source-type binding of `parse_sync` (lib.rs lines 88-92):
override the script/module axis when `source_type` is the literal
"script" or "module"; any other value falls through unchanged. -/
def resolveSourceType (options : ParserOptions) : Option SourceType :=
  (inferredSourceType options).map fun st =>
    match options.source_type with
    | some "script" => st.with_script true
    | some "module" => st.with_module true
    | _ => st

/-- `CommentKind` of the engine comment record (`oxc_ast`). -/
inductive CommentKind where
  | line | block
  deriving DecidableEq, Repr

/-- The engine comment record: its kind and full span (`comment.span`). -/
structure EngineComment where
  kind : CommentKind
  start : Nat
  «end» : Nat
  deriving DecidableEq, Repr

/-- Modelled from the spec: `Comment::content_span` lives in `oxc_ast`, not
under src/. Per spec section 4.3 and the glossary, the content span is the
text between the delimiters: a line comment has a two-character opening
marker and no closing one; a block comment has two-character delimiters on
both sides. -/
def EngineComment.content_span (c : EngineComment) : Nat × Nat :=
  match c.kind with
  | .line => (c.start + 2, c.«end»)
  | .block => (c.start + 2, c.«end» - 2)

/-- `Span::source_text` (the source span extractor of spec section 4.3):
the exact substring of the source at offsets `[span.1, span.2)`. -/
def sourceText (source : String) (span : Nat × Nat) : String :=
  String.mk ((source.toList.drop span.1).take (span.2 - span.1))

/-- `CommentType` (lib.rs lines 58-63). -/
inductive CommentType where
  | Line | Block
  deriving DecidableEq, Repr

/-- Boundary `Comment` (lib.rs lines 50-56). -/
structure Comment where
  type : CommentType
  value : String
  start : Nat
  «end» : Nat
  deriving DecidableEq, Repr

/-- Boundary `Diagnostic` (lib.rs lines 42-48). -/
structure Diagnostic where
  start : Nat
  «end» : Nat
  severity : String
  message : String
  deriving DecidableEq, Repr

/-- The comment marshaling loop of `parse_sync` (lib.rs lines 100-120):
short-circuit on an empty list, else map each engine comment to a boundary
`Comment` whose value is the content-span text and whose bounds are the
full span. -/
def packageComments (source : String) (comments : List EngineComment) : List Comment :=
  if comments.isEmpty then []
  else comments.map fun comment =>
    { type := match comment.kind with
        | .line => CommentType.Line
        | .block => CommentType.Block,
      value := sourceText source comment.content_span,
      start := comment.start,
      «end» := comment.«end» }

/-- A position label of an engine error (`miette::LabeledSpan`): its byte
offset and length. -/
structure LabeledSpan where
  offset : Nat
  len : Nat
  deriving DecidableEq, Repr

/-- An engine error record (`oxc_diagnostics::OxcDiagnostic`): its optional
label list and its rendered display text (`format!` on the error). -/
structure OxcDiagnostic where
  labels : Option (List LabeledSpan)
  message : String
  deriving DecidableEq, Repr

/-- The diagnostics fan-out of `parse_sync` (lib.rs lines 122-144):
short-circuit on an empty list, else flat-map each error to one boundary
`Diagnostic` per label, all sharing the error's rendered message. -/
def packageErrors (errors : List OxcDiagnostic) : List Diagnostic :=
  if errors.isEmpty then []
  else errors.flatMap fun error =>
    match error.labels with
    | none => []
    | some labels => labels.map fun label =>
      { start := label.offset,
        «end» := label.offset + label.len,
        severity := "Error",
        message := error.message }

/-- Modelled from the spec: the parser engine itself is external to src/.
The spec scenario fixes its output on the source
`"// hi\nconst a = 1;"`: one line comment spanning bytes 0..5 and an empty
error list. -/
def scenarioSource : String := "// hi\nconst a = 1;"

/-- Modelled from the spec: the engine comment list for `scenarioSource`. -/
def scenarioEngineComments : List EngineComment :=
  [{ kind := .line, start := 0, «end» := 5 }]

/-- Modelled from the spec: the engine error list for `scenarioSource`. -/
def scenarioEngineErrors : List OxcDiagnostic := []

/-! ## Helper lemmas -/

theorem except_ok_bind {ε α β : Type} (a : α) (f : α → Except ε β) :
    (Except.ok a >>= f) = f a := rfl

theorem except_error_bind {ε α β : Type} (e : ε) (f : α → Except ε β) :
    ((Except.error e : Except ε α) >>= f) = Except.error e := rfl

theorem except_map_ok {ε α β : Type} (a : α) (f : α → β) :
    (Except.ok a : Except ε α).map f = Except.ok (f a) := rfl

theorem except_map_error {ε α β : Type} (e : ε) (f : α → β) :
    (Except.error e : Except ε α).map f = Except.error e := rfl

theorem esTarget_from_str_error (s e : String)
    (h : ESTarget.from_str s = .error e) :
    e = "invalid value for target: " ++ s := by
  unfold ESTarget.from_str at h
  split_ifs at h
  simp_all

/-! ## Claims about the minify configuration resolution -/

/-- C1: for each of the compress and mangle sub-systems, resolving the
tri-state input Absent (field omitted) and resolving BooleanFlag(true)
produce identical results, and the stage is enabled with the full engine
default options record. -/
theorem absent_eq_flag_true_C1 (o : MinifyOptions) :
    minifierOptionsTryFrom { o with compress := none }
      = minifierOptionsTryFrom { o with compress := some (Either.a true) }
    ∧ minifierOptionsTryFrom { o with mangle := none }
      = minifierOptionsTryFrom { o with mangle := some (Either.a true) }
    ∧ (∃ r, minifierOptionsTryFrom { o with compress := none } = .ok r
        ∧ r.compress = some oxc_minifier.CompressOptions.default)
    ∧ (∀ r, minifierOptionsTryFrom { o with mangle := none } = .ok r
        → r.mangle = some oxc_minifier.MangleOptions.default) := by
  refine ⟨rfl, rfl, ⟨_, rfl, rfl⟩, ?_⟩
  intro r h
  rcases o with ⟨compress, mangle, codegen, sourcemap⟩
  rcases compress with _ | ⟨b | c⟩
  · cases h; rfl
  · cases b
    · cases h; rfl
    · cases h; rfl
  · rcases hc : compressTryFrom c with e | v
    · simp only [minifierOptionsTryFrom, except_ok_bind, hc, except_map_error,
        except_error_bind] at h
      exact Except.noConfusion h
    · simp only [minifierOptionsTryFrom, except_ok_bind, hc, except_map_ok,
        except_ok_bind, Except.ok.injEq] at h
      subst h; rfl

/-- C1 witness: the mangle conjunct applied at the fully empty
configuration. -/
theorem absent_eq_flag_true_C1_witness :
    (⟨some oxc_minifier.CompressOptions.default,
      some oxc_minifier.MangleOptions.default⟩ :
      oxc_minifier.MinifierOptions).mangle
      = some oxc_minifier.MangleOptions.default :=
  (absent_eq_flag_true_C1 MinifyOptions.default).2.2.2
    ⟨some oxc_minifier.CompressOptions.default,
      some oxc_minifier.MangleOptions.default⟩ rfl

/-- C2: a BooleanFlag(false) input for compress or mangle always resolves
to a disabled stage (`none` in the assembled engine configuration),
whatever the other top-level fields are. -/
theorem flag_false_disables_C2 (o : MinifyOptions) :
    (o.compress = some (Either.a false) →
      ∃ r, minifierOptionsTryFrom o = .ok r ∧ r.compress = none)
    ∧ (o.mangle = some (Either.a false) →
      ∀ r, minifierOptionsTryFrom o = .ok r → r.mangle = none) := by
  rcases o with ⟨compress, mangle, codegen, sourcemap⟩
  constructor
  · intro hc
    dsimp at hc; subst hc
    exact ⟨_, rfl, rfl⟩
  · intro hm r h
    dsimp at hm; subst hm
    rcases compress with _ | ⟨b | c⟩
    · cases h; rfl
    · cases b
      · cases h; rfl
      · cases h; rfl
    · rcases hc : compressTryFrom c with e | v
      · simp only [minifierOptionsTryFrom, except_ok_bind, hc, except_map_error,
          except_error_bind] at h
        exact Except.noConfusion h
      · simp only [minifierOptionsTryFrom, except_ok_bind, hc, except_map_ok,
          except_ok_bind, Except.ok.injEq] at h
        subst h; rfl

/-- C2 witness: both conjuncts applied at a concrete configuration with
compress and mangle both set to the boolean flag false. -/
theorem flag_false_disables_C2_witness :
    (∃ r, minifierOptionsTryFrom
        { compress := some (Either.a false), mangle := some (Either.a false),
          codegen := none, sourcemap := none } = .ok r ∧ r.compress = none)
    ∧ (⟨none, none⟩ : oxc_minifier.MinifierOptions).mangle = none :=
  ⟨(flag_false_disables_C2
      { compress := some (Either.a false), mangle := some (Either.a false),
        codegen := none, sourcemap := none }).1 rfl,
   (flag_false_disables_C2
      { compress := some (Either.a false), mangle := some (Either.a false),
        codegen := none, sourcemap := none }).2 rfl ⟨none, none⟩ rfl⟩

/-- C3: a DetailedConfig input to compress or mangle resolution is merged
field by field: every field present in the record overrides the engine
default exactly and every absent field equals the engine default for that
field individually; in particular a compress record with only dropConsole
set keeps the default target and dropDebugger. -/
theorem detailed_merge_C3 (c : CompressOptions) (m : MangleOptions) :
    (∀ r, compressTryFrom c = .ok r →
      (c.drop_console = none →
        r.drop_console = oxc_minifier.CompressOptions.default.drop_console)
      ∧ (∀ b, c.drop_console = some b → r.drop_console = b)
      ∧ (c.drop_debugger = none →
        r.drop_debugger = oxc_minifier.CompressOptions.default.drop_debugger)
      ∧ (∀ b, c.drop_debugger = some b → r.drop_debugger = b)
      ∧ (c.target = none → r.target = oxc_minifier.CompressOptions.default.target)
      ∧ (∀ s t, c.target = some s → ESTarget.from_str s = .ok t → r.target = t))
    ∧ (m.toplevel = none →
      (mangleFrom m).top_level = oxc_minifier.MangleOptions.default.top_level)
    ∧ (∀ b, m.toplevel = some b → (mangleFrom m).top_level = b)
    ∧ (m.debug = none → (mangleFrom m).debug = oxc_minifier.MangleOptions.default.debug)
    ∧ (∀ b, m.debug = some b → (mangleFrom m).debug = b)
    ∧ compressTryFrom { target := none, drop_console := some true, drop_debugger := none }
        = .ok { target := oxc_minifier.CompressOptions.default.target,
                drop_console := true,
                drop_debugger := oxc_minifier.CompressOptions.default.drop_debugger } := by
  refine ⟨?_, ?_, ?_, ?_, ?_, rfl⟩
  · intro r h
    rcases c with ⟨t, dc, dd⟩
    rcases t with _ | s
    · simp only [compressTryFrom, except_ok_bind, Except.ok.injEq] at h
      subst h
      refine ⟨fun hdc => ?_, fun b hdc => ?_, fun hdd => ?_, fun b hdd => ?_,
        fun _ => rfl, fun s t hs _ => by simp_all⟩ <;> simp_all
    · rcases hs : ESTarget.from_str s with e | t'
      · simp only [compressTryFrom, hs, except_map_error, except_error_bind] at h
        exact Except.noConfusion h
      · simp only [compressTryFrom, hs, except_map_ok, except_ok_bind,
          Except.ok.injEq] at h
        subst h
        refine ⟨fun hdc => ?_, fun b hdc => ?_, fun hdd => ?_, fun b hdd => ?_,
          fun hT => by simp_all, fun s' t'' hs' hok => ?_⟩
        · simp_all
        · simp_all
        · simp_all
        · simp_all
        · simp only [Option.some.injEq] at hs'
          subst hs'
          rw [hs] at hok
          simp only [Except.ok.injEq] at hok
          simp [hok]
  · intro h
    rcases m with ⟨tl, dbg⟩
    simp_all [mangleFrom]
  · intro b h
    rcases m with ⟨tl, dbg⟩
    simp_all [mangleFrom]
  · intro h
    rcases m with ⟨tl, dbg⟩
    simp_all [mangleFrom]
  · intro b h
    rcases m with ⟨tl, dbg⟩
    simp_all [mangleFrom]

/-- C3 witness: the present-field and absent-field conjuncts applied at a
compress record with only dropConsole set and a mangle record with only
toplevel set. -/
theorem detailed_merge_C3_witness :
    (⟨ESTarget.esnext, true, true⟩ : oxc_minifier.CompressOptions).drop_console = true
    ∧ (mangleFrom { toplevel := some true, debug := none }).top_level = true :=
  ⟨((detailed_merge_C3
      { target := none, drop_console := some true, drop_debugger := none }
      { toplevel := some true, debug := none }).1
      ⟨ESTarget.esnext, true, true⟩ rfl).2.1 true rfl,
   (detailed_merge_C3
      { target := none, drop_console := some true, drop_debugger := none }
      { toplevel := some true, debug := none }).2.2.1 true rfl⟩

/-- C4: a compress DetailedConfig whose target string is not a recognized
ECMAScript version tag makes the whole options assembly fail with the
configuration error naming the target field and the offending value, and
no engine options record is produced at all. -/
theorem invalid_target_aborts_C4 (o : MinifyOptions) (c : CompressOptions)
    (s e : String)
    (hc : o.compress = some (Either.b c))
    (ht : c.target = some s)
    (he : ESTarget.from_str s = .error e) :
    minifierOptionsTryFrom o = .error e
    ∧ e = "invalid value for target: " ++ s
    ∧ ∀ r, minifierOptionsTryFrom o ≠ .ok r := by
  have h1 : minifierOptionsTryFrom o = .error e := by
    rcases o with ⟨compress, mangle, codegen, sourcemap⟩
    dsimp at hc; subst hc
    rcases c with ⟨t, dc, dd⟩
    dsimp at ht; subst ht
    simp only [minifierOptionsTryFrom, compressTryFrom, he, except_map_error,
      except_error_bind, except_ok_bind]
  refine ⟨h1, esTarget_from_str_error s e he, fun r hok => ?_⟩
  rw [h1] at hok
  exact Except.noConfusion hok

/-- C4 witness: the assembly aborts on the unrecognized target tag "es6". -/
theorem invalid_target_aborts_C4_witness :
    minifierOptionsTryFrom
      { compress := some (Either.b
          { target := some "es6", drop_console := none, drop_debugger := none }),
        mangle := none, codegen := none, sourcemap := none }
      = .error ("invalid value for target: " ++ "es6") :=
  (invalid_target_aborts_C4
    { compress := some (Either.b
        { target := some "es6", drop_console := none, drop_debugger := none }),
      mangle := none, codegen := none, sourcemap := none }
    { target := some "es6", drop_console := none, drop_debugger := none }
    "es6" ("invalid value for target: " ++ "es6") rfl rfl rfl).1

/-- C5: the tri-state rule applies to the codegen sub-system as to the
others: the empty configuration enables codegen with full defaults
(remove-whitespace = true) just as compress and mangle resolve to
enabled-with-defaults, BooleanFlag(false) disables the stage, Absent and
BooleanFlag(true) coincide, and a DetailedConfig merges via the src
conversion. -/
theorem codegen_identical_rule_C5 :
    resolveCodegen MinifyOptions.default.codegen = some { minify := true }
    ∧ resolveCodegen none = resolveCodegen (some (Either.a true))
    ∧ resolveCodegen (some (Either.a false)) = none
    ∧ (∀ cg, resolveCodegen (some (Either.b cg)) = some (codegenFrom cg))
    ∧ minifierOptionsTryFrom MinifyOptions.default
        = .ok { compress := some oxc_minifier.CompressOptions.default,
                mangle := some oxc_minifier.MangleOptions.default } :=
  ⟨rfl, rfl, rfl, fun _ => rfl, rfl⟩

/-! ## Claims about the parse-result marshaling -/

theorem string_mk_append (l1 l2 : List Char) :
    String.mk l1 ++ String.mk l2 = String.mk (l1 ++ l2) := rfl

theorem sourceText_append (source : String) (a b c : Nat)
    (hab : a ≤ b) (hbc : b ≤ c) :
    sourceText source (a, b) ++ sourceText source (b, c)
      = sourceText source (a, c) := by
  simp only [sourceText]
  rw [string_mk_append]
  congr 1
  have hd : source.toList.drop b = (source.toList.drop a).drop (b - a) := by
    rw [List.drop_drop]
    congr 1
    omega
  rw [hd, ← List.take_add]
  congr 1
  omega

/-- C6: `Comment.value` is the source text of the comment's content span
(the delimiters themselves are excluded from it), while `start`/`end` are
the bounds of the full span, so the `[start, end)` slice of the original
source is the delimiters plus the value; on the spec scenario source the
packager yields exactly one line comment with value " hi" spanning 0..5
and zero diagnostics. -/
theorem comment_spans_C6 :
    packageComments scenarioSource scenarioEngineComments
      = [{ type := CommentType.Line, value := " hi", start := 0, «end» := 5 }]
    ∧ packageErrors scenarioEngineErrors = []
    ∧ (∀ (source : String) (c : EngineComment), c.kind = CommentKind.line →
        c.start + 2 ≤ c.«end» →
        sourceText source (c.start, c.start + 2) = "//" →
        sourceText source (c.start, c.«end»)
          = "//" ++ sourceText source c.content_span)
    ∧ (∀ (source : String) (c : EngineComment), c.kind = CommentKind.block →
        c.start + 2 ≤ c.«end» - 2 → 2 ≤ c.«end» →
        sourceText source (c.start, c.start + 2) = "/*" →
        sourceText source (c.«end» - 2, c.«end») = "*/" →
        sourceText source (c.start, c.«end»)
          = "/*" ++ sourceText source c.content_span ++ "*/")
    ∧ (∀ (source : String) (cs : List EngineComment) (c : EngineComment),
        c ∈ cs →
        ({ type := match c.kind with
             | CommentKind.line => CommentType.Line
             | CommentKind.block => CommentType.Block,
           value := sourceText source c.content_span,
           start := c.start, «end» := c.«end» } : Comment)
          ∈ packageComments source cs) := by
  refine ⟨by decide, rfl, ?_, ?_, ?_⟩
  · intro source c hk h1 h2
    rcases c with ⟨k, st, en⟩
    dsimp at hk; subst hk
    dsimp [EngineComment.content_span]
    rw [← h2]
    exact (sourceText_append source st (st + 2) en (by omega) h1).symm
  · intro source c hk h1 h2 h3 h4
    rcases c with ⟨k, st, en⟩
    dsimp at hk; subst hk
    dsimp [EngineComment.content_span] at *
    rw [← h3, ← h4]
    rw [sourceText_append source st (st + 2) (en - 2) (by omega) h1]
    exact (sourceText_append source st (en - 2) en (by omega) (by omega)).symm
  · intro source cs c hc
    rcases cs with _ | ⟨c0, rest⟩
    · exact absurd hc (List.not_mem_nil c)
    · exact List.mem_map_of_mem _ hc

/-- C6 witness: the span conjuncts applied at a concrete line comment, a
concrete block comment and a concrete packaged list. -/
theorem comment_spans_C6_witness :
    sourceText "// x" (0, 4)
      = "//" ++ sourceText "// x"
          (EngineComment.content_span ⟨CommentKind.line, 0, 4⟩)
    ∧ sourceText "/*y*/" (0, 5)
      = "/*" ++ sourceText "/*y*/"
          (EngineComment.content_span ⟨CommentKind.block, 0, 5⟩) ++ "*/"
    ∧ ({ type := CommentType.Line, value := " x", start := 0, «end» := 4 } : Comment)
        ∈ packageComments "// x" [⟨CommentKind.line, 0, 4⟩] :=
  ⟨comment_spans_C6.2.2.1 "// x" ⟨CommentKind.line, 0, 4⟩ rfl (by decide) (by decide),
   comment_spans_C6.2.2.2.1 "/*y*/" ⟨CommentKind.block, 0, 5⟩ rfl (by decide)
     (by decide) (by decide) (by decide),
   comment_spans_C6.2.2.2.2 "// x" [⟨CommentKind.line, 0, 4⟩]
     ⟨CommentKind.line, 0, 4⟩ (List.mem_singleton.mpr rfl)⟩

theorem packageErrors_flatMap (l : List OxcDiagnostic) :
    packageErrors l = l.flatMap fun error =>
      (error.labels.getD []).map fun label =>
        ({ start := label.offset, «end» := label.offset + label.len,
           severity := "Error", message := error.message } : Diagnostic) := by
  induction l with
  | nil => rfl
  | cons e rest ih =>
    have hstep : packageErrors (e :: rest)
        = (match e.labels with
            | none => []
            | some labels => labels.map fun label =>
              ({ start := label.offset, «end» := label.offset + label.len,
                 severity := "Error", message := e.message } : Diagnostic))
          ++ (rest.flatMap fun error =>
            match error.labels with
            | none => []
            | some labels => labels.map fun label =>
              ({ start := label.offset, «end» := label.offset + label.len,
                 severity := "Error", message := error.message } : Diagnostic)) := rfl
    have htail : (rest.flatMap fun error =>
        match error.labels with
        | none => []
        | some labels => labels.map fun label =>
          ({ start := label.offset, «end» := label.offset + label.len,
             severity := "Error", message := error.message } : Diagnostic))
        = rest.flatMap fun error =>
          (error.labels.getD []).map fun label =>
            ({ start := label.offset, «end» := label.offset + label.len,
               severity := "Error", message := error.message } : Diagnostic) := by
      rcases rest with _ | ⟨r0, rrest⟩
      · rfl
      · have : packageErrors (r0 :: rrest)
            = (r0 :: rrest).flatMap fun error =>
              match error.labels with
              | none => []
              | some labels => labels.map fun label =>
                ({ start := label.offset, «end» := label.offset + label.len,
                   severity := "Error", message := error.message } : Diagnostic) := rfl
        rw [← this, ih]
    rw [hstep, htail, List.flatMap_cons]
    congr 1
    rcases e with ⟨lab, msg⟩
    rcases lab with _ | lab <;> rfl

/-- C7: the diagnostics fan-out emits exactly one Diagnostic per position
label of each engine error, with span [offset, offset + len), severity
"Error" and the error's rendered message shared by all of them; an error
with zero labels (a missing or empty label list) contributes nothing, and
the output is the in-order concatenation of each error's labels'
diagnostics. -/
theorem diagnostics_fanout_C7 (errors : List OxcDiagnostic) (m : String) :
    packageErrors errors = (errors.flatMap fun error =>
      (error.labels.getD []).map fun label =>
        ({ start := label.offset, «end» := label.offset + label.len,
           severity := "Error", message := error.message } : Diagnostic))
    ∧ packageErrors [{ labels := none, message := m }] = []
    ∧ packageErrors [{ labels := some [], message := m }] = []
    ∧ (packageErrors errors).length
        = (errors.map fun error => (error.labels.getD []).length).sum := by
  refine ⟨packageErrors_flatMap errors, rfl, rfl, ?_⟩
  rw [packageErrors_flatMap errors, List.length_flatMap]
  congr 1
  congr 1
  funext error
  simp

/-! ## Claims about the parse source-type resolution -/

/-- C8 counterexample: with sourceType present ("script"), the
sourceFilename still changes the resolved source type: a ".jsx" filename
yields a jsx dialect the filename-less request does not have. -/
theorem source_filename_affects_C8_counterexample :
    resolveSourceType { source_type := some "script", source_filename := some "a.jsx" }
      ≠ resolveSourceType { source_type := some "script", source_filename := none } := by
  decide

/-- C8 (amended): when sourceType is present as "script" or "module" it
overrides only the script/module axis of the source type inferred from
sourceFilename; the dialect (jsx) axis inferred from sourceFilename
persists, so sourceFilename still affects the source type used for
parsing; when sourceType is absent the inferred type is used unchanged. -/
theorem source_type_override_C8 (options : ParserOptions) (st : SourceType)
    (h : inferredSourceType options = some st) :
    (options.source_type = some "script" →
      resolveSourceType options = some (st.with_script true))
    ∧ (options.source_type = some "module" →
      resolveSourceType options = some (st.with_module true))
    ∧ (options.source_type = none → resolveSourceType options = some st)
    ∧ (∀ b, (st.with_script b).jsx = st.jsx ∧ (st.with_module b).jsx = st.jsx) := by
  refine ⟨?_, ?_, ?_, fun b => ⟨rfl, rfl⟩⟩ <;>
    · intro hs
      simp [resolveSourceType, h, hs]

/-- C8 witness: the "script" override applied to a request with a ".jsx"
filename. -/
theorem source_type_override_C8_witness :
    resolveSourceType { source_type := some "script", source_filename := some "a.jsx" }
      = some (SourceType.with_script { module := true, jsx := true } true) :=
  (source_type_override_C8
    { source_type := some "script", source_filename := some "a.jsx" }
    { module := true, jsx := true } rfl).1 rfl

/-- C9: when sourceFilename is present but its path is rejected by the
source-type inference, the unwrapped Option is none and parse_sync panics
(modelled as the resolution producing no source type at all); when
sourceFilename is absent or recognized, that panic branch is unreachable
and a source type is always produced. -/
theorem unwrap_panic_C9 (options : ParserOptions) :
    (∀ name, options.source_filename = some name →
      SourceType.from_path name = none → resolveSourceType options = none)
    ∧ (options.source_filename = none → ∃ st, resolveSourceType options = some st)
    ∧ (∀ name st, options.source_filename = some name →
      SourceType.from_path name = some st →
      ∃ st2, resolveSourceType options = some st2) := by
  have hsome : ∀ st0, inferredSourceType options = some st0 →
      ∃ st2, resolveSourceType options = some st2 := by
    intro st0 h0
    simp only [resolveSourceType, h0, Option.map_some']
    exact ⟨_, rfl⟩
  refine ⟨?_, ?_, ?_⟩
  · intro name hn hp
    simp [resolveSourceType, inferredSourceType, hn, hp]
  · intro hn
    exact hsome SourceType.default (by simp [inferredSourceType, hn])
  · intro name st hn hp
    exact hsome st (by simp [inferredSourceType, hn, hp])

/-- C9 witness: a rejected extension yields no source type; an absent
filename always yields one. -/
theorem unwrap_panic_C9_witness :
    resolveSourceType { source_type := none, source_filename := some "a.txt" } = none
    ∧ ∃ st, resolveSourceType { source_type := none, source_filename := none }
        = some st :=
  ⟨(unwrap_panic_C9 { source_type := none, source_filename := some "a.txt" }).1
      "a.txt" rfl rfl,
   (unwrap_panic_C9 { source_type := none, source_filename := none }).2.1 rfl⟩

/-- C10: a present sourceType string that is neither "script" nor "module"
is silently treated as if sourceType were absent: the resolved source type
is identical to the one of the same request with sourceType omitted. -/
theorem unknown_source_type_ignored_C10 (options : ParserOptions) (s : String)
    (hs : options.source_type = some s)
    (h1 : s ≠ "script") (h2 : s ≠ "module") :
    resolveSourceType options
      = resolveSourceType
          { source_type := none, source_filename := options.source_filename } := by
  rcases options with ⟨stype, sfile⟩
  dsimp at hs; subst hs
  simp only [resolveSourceType, inferredSourceType]
  congr 1
  funext st
  split <;> simp_all

/-- C10 witness: the unrecognized token "commonjs" leaves the resolved
source type identical to the sourceType-less request. -/
theorem unknown_source_type_ignored_C10_witness :
    resolveSourceType { source_type := some "commonjs", source_filename := some "a.js" }
      = resolveSourceType { source_type := none, source_filename := some "a.js" } :=
  unknown_source_type_ignored_C10
    { source_type := some "commonjs", source_filename := some "a.js" }
    "commonjs" rfl (by decide) (by decide)
